import Mathlib

/-!
# libplacebo `shaders/sampling.c`: polar sampling and debanding shader generators

A shallow embedding of `src/shaders/sampling.c` (with the parameter structures of
`src/public/shaders/sampling.h`).

Modelling conventions

* C `float` / `double` values are exact rationals (`ℚ`): rounding, infinities and NaN are
  not modelled, and a `%f` argument is kept as the exact value, not as its six printed
  decimals.  A comparison against `sqrt(n)` is decided exactly on the squares; the lemmas
  `sqrt_ge_iff`, `sqrt_ge_sub_sqrt2_iff` and `guard_passes_iff` relate these tests to
  `Real.sqrt`.
* C `int` values are mathematical integers, except where the source converts a `size_t`
  product back to `int` (`shmem_req`), which wraps to 32 bits.
* An `ident_t` (`const char *`) is an optional string, `none` being the null pointer.
* The text appended by `GLSL(...)` / `GLSLH(...)` is kept as a list of fragments, one
  constructor per format string of the source, carrying the format arguments.
* Collaborators that live outside the translated sources (`sh_require`, `ra_find_fmt`,
  `pl_filter_generate`, `ra_tex_create`, `sh_try_compute`, `sh_bind`, ...) are the fields of
  `Env`; every call of the filter generator, of texture creation and of `sh_try_compute`, and
  every log line, is recorded in the `trace` of the state.
-/

namespace Placebo

/-! ## Data model -/

/-- An identifier handed out by the shader builder; `none` is the null pointer. -/
abbrev ident_t := Option String

/-- Floating-point rectangle `struct pl_rect2df`. -/
structure pl_rect2df where
  x0 : ℚ
  y0 : ℚ
  x1 : ℚ
  y1 : ℚ
deriving DecidableEq

/-- Filter configuration `struct pl_filter_config`: the `polar` flag, and `kernel` standing
for the remaining fields (kernel and window functions with their parameters). -/
structure pl_filter_config where
  polar : Bool
  kernel : Nat
deriving DecidableEq

/-- Parameters of a generated filter, `struct pl_filter_params`. -/
structure pl_filter_params where
  config : pl_filter_config
  lut_entries : Int
  filter_scale : ℚ
  cutoff : ℚ
deriving DecidableEq

/-- A generated filter, `struct pl_filter`. -/
structure pl_filter where
  params : pl_filter_params
  weights : List ℚ
  radius : ℚ
  radius_cutoff : ℚ
deriving DecidableEq

/-- Texture format `struct ra_fmt` (only the component count is read here). -/
structure ra_fmt where
  name : String
  num_components : Int
deriving DecidableEq

inductive ra_tex_sample_mode where
  | RA_TEX_SAMPLE_NEAREST
  | RA_TEX_SAMPLE_LINEAR
deriving DecidableEq

inductive ra_tex_address_mode where
  | RA_TEX_ADDRESS_CLAMP
  | RA_TEX_ADDRESS_REPEAT
  | RA_TEX_ADDRESS_MIRROR
deriving DecidableEq

/-- Texture creation parameters `struct ra_tex_params`. -/
structure ra_tex_params where
  w : Int
  h : Int
  format : ra_fmt
  sampleable : Bool
  sample_mode : ra_tex_sample_mode
  address_mode : ra_tex_address_mode
  initial_data : Option (List ℚ)
deriving DecidableEq

/-- A texture `struct ra_tex`; `handle` tells two textures with equal parameters apart. -/
structure ra_tex where
  params : ra_tex_params
  handle : Nat
deriving DecidableEq

/-- The cached LUT `struct pl_shader_obj` behind the caller's slot: an optional filter and an
optional backing texture. -/
structure pl_shader_obj where
  filter : Option pl_filter
  tex : Option ra_tex
deriving DecidableEq

/-- Common sampling parameters `struct pl_sample_src`; a zero field is unset. -/
structure pl_sample_src where
  tex : ra_tex
  rect : pl_rect2df
  components : Int
  new_w : Int
  new_h : Int
deriving DecidableEq

/-- Parameters `struct pl_sample_polar_params`.  The slot `lut` the C structure points to is
the `lut` field of `State`. -/
structure pl_sample_polar_params where
  filter : pl_filter_config
  lut_entries : Int
  cutoff : ℚ
deriving DecidableEq

/-- Parameters `struct pl_deband_params`. -/
structure pl_deband_params where
  seed : ℚ
  iterations : Int
  threshold : ℚ
  radius : ℚ
  grain : ℚ
deriving DecidableEq

/-- The defaults `pl_deband_default_params`. -/
def pl_deband_default_params : pl_deband_params :=
  { seed := 0, iterations := 1, threshold := 4, radius := 16, grain := 6 }

/-! ## Emitted program text -/

/-- One fragment of emitted GLSL: a constructor per format string of `sampling.c`, with the
format arguments in the order of the source. -/
inductive Glsl where
  /-- Text `vec4 color;`, `// pl_shader_deband`, `{`. -/
  | deband_open
  /-- Text `vec2 pos = %s;`. -/
  | deband_pos (pos : ident_t)
  /-- Header: the functions `permute` and `random`. -/
  | deband_prng_fns (permute random : ident_t)
  /-- Text `vec3 _m = vec3(pos, seed) + vec3(1.0); float prng = permute(permute(permute(_m.x) +
  _m.y) + _m.z); vec4 avg, diff; color = texture(tex, pos);` -/
  | deband_init (seed permute tex : ident_t)
  /-- Header: the function `average(pos, range, prng)`. -/
  | deband_average_fn (average random tex pt : ident_t)
  /-- Text `avg = average(pos, range, prng); diff = abs(color - avg);
  color = mix(avg, color, greaterThan(diff, vec4(threshold)));` -/
  | deband_step (average : ident_t) (range threshold : ℚ)
  /-- Text `vec3 noise = vec3(random(prng), random(prng), random(prng));
  color.rgb += amount * (noise - vec3(0.5));` -/
  | deband_noise (random : ident_t) (amount : ℚ)
  /-- Text `}`. -/
  | block_close
  /-- Text `// pl_shader_sample_polar`, `vec4 color = vec4(0.0);`, `{`,
  `vec2 pos = %s, size = %s, pt = %s;`, `float w, d, wsum = 0.0;`, `int idx;`, `vec4 c;` -/
  | polar_open (pos size pt : ident_t)
  /-- Text `vec2 wpos = %s_map(gl_WorkGroupID * gl_WorkGroupSize);` and the definitions of
  `wbase`, `fcoord`, `base`, `rel`. -/
  | polar_compute_setup (pos : ident_t)
  /-- Text `for (int y = int(gl_LocalInvocationID.y); y < %d; y += %d) {`
  `for (int x = int(gl_LocalInvocationID.x); x < %d; x += %d) {`
  `c = texture(%s, wbase + pt * vec2(x - %d, y - %d));` -/
  | polar_load_open (a1 a2 a3 a4 : Int) (src_tex : ident_t) (a6 a7 : Int)
  /-- Header: `shared float in%d[%d];` -/
  | polar_shared_decl (c size : Int)
  /-- Text `in%d[%d * y + x] = c[%d];`. -/
  | polar_load_store (c iw c2 : Int)
  /-- Text `}}`, `groupMemoryBarrier();`, `barrier();` -/
  | polar_load_close
  /-- Text `idx = %d * rel.y + rel.x + %d;` -/
  | polar_idx (iw k : Int)
  /-- Text `d = length(vec2(%d.0, %d.0) - fcoord);`: the sample term of offset `(x, y)` starts. -/
  | polar_dist (x y : Int)
  /-- Text `if (d < %f) {`. -/
  | polar_guard_open (radius_cutoff : ℚ)
  /-- Text `w = texture(lut, lut_pos(d * 1.0/radius)).r; wsum += w;` -/
  | polar_weight (lut lut_pos : ident_t) (radius : ℚ)
  /-- Text `color[%d] += w * in%d[idx];` -/
  | polar_acc_planar (n n2 : Int)
  /-- Text `in0 = texture(tex, base + pt * vec2(%d.0, %d.0)); color += vec4(w) * in0);` -/
  | polar_acc_direct (tex : ident_t) (x y : Int)
  /-- Text `color = color / vec4(wsum);`, `}` -/
  | polar_close
deriving DecidableEq

/-- A resource request made to the shader builder through `sh_desc`, `sh_bind`, `sh_var` or
`sh_lut_pos`. -/
inductive ShBinding where
  /-- Call `sh_desc` of a sampled texture under `name`. -/
  | desc (name : String) (object : ra_tex)
  /-- Call `sh_bind` of texture `tex` under `name` with the rectangle passed (if any). -/
  | bind (tex : ra_tex) (name : String) (rect : Option pl_rect2df)
  /-- Call `sh_var` of a float uniform. -/
  | var (name : String) (data : ℚ)
  /-- The LUT position helper registered by `sh_lut_pos`. -/
  | lut_pos (lut_entries : Int)
deriving DecidableEq

/-- The shader under construction, `struct pl_shader`: body text (`GLSL`), header text
(`GLSLH`) and the resource requests made so far. -/
structure pl_shader where
  body : List Glsl
  header : List Glsl
  bindings : List ShBinding
deriving DecidableEq

/-- The macro `GLSL(...)`: append to the body. -/
def GLSL (sh : pl_shader) (code : List Glsl) : pl_shader :=
  { sh with body := sh.body ++ code }

/-- The macro `GLSLH(...)`: append to the header. -/
def GLSLH (sh : pl_shader) (code : List Glsl) : pl_shader :=
  { sh with header := sh.header ++ code }

inductive LogLevel where
  | err
  | warn
  | info
deriving DecidableEq

/-- What a call does outside the shader and the slot. -/
inductive Event where
  /-- Macros `PL_ERR` / `PL_WARN` / `PL_INFO`. -/
  | log (lvl : LogLevel) (msg : String)
  /-- Call `pl_filter_free(&lut->filter)` -/
  | filter_free
  /-- Call `pl_filter_generate(ctx, &params)` -/
  | filter_generate (p : pl_filter_params)
  /-- Call `ra_tex_create(ra, &params)` -/
  | tex_create (p : ra_tex_params)
  /-- Call `sh_try_compute(sh, bw, bh, flex, shmem)`. -/
  | try_compute (bw bh : Int) (flex : Bool) (shmem : Int)
deriving DecidableEq

/-- What `sh_bind` hands back: the texture identifier (null on failure) and the identifiers
of the position, the size and the texel step. -/
structure BindResult where
  tex : ident_t
  pos : ident_t
  size : ident_t
  pt : ident_t
deriving DecidableEq

/-- The collaborators of `sampling.c` that are declared outside the translated sources. -/
structure Env where
  /-- Limit `ra->limits.max_tex_1d_dim`. -/
  max_tex_1d_dim : Int
  /-- Result of `sh_require(sh, PL_SHADER_SIG_NONE, w, h)`. -/
  sh_require : pl_shader → Int → Int → Bool
  /-- The checks of `sh_require_obj` on an object already in the slot. -/
  obj_ok : pl_shader_obj → Bool
  /-- Result of `ra_find_fmt(ra, RA_FMT_FLOAT, 1, 32, true, SAMPLEABLE | LINEAR)` -/
  ra_find_fmt : Option ra_fmt
  /-- Result of `pl_filter_generate`. -/
  pl_filter_generate : pl_filter_params → Option pl_filter
  /-- Result of `ra_tex_create`. -/
  ra_tex_create : ra_tex_params → Option ra_tex
  /-- Result of `sh_try_compute(sh, bw, bh, flex, shmem)`. -/
  sh_try_compute : pl_shader → Int → Int → Bool → Int → Bool
  /-- Identifier returned by `sh_desc`. -/
  sh_desc : pl_shader → String → ra_tex → ident_t
  /-- Identifiers returned by `sh_bind`. -/
  sh_bind : pl_shader → ra_tex → String → Option pl_rect2df → BindResult
  /-- Identifier returned by `sh_lut_pos`. -/
  sh_lut_pos : pl_shader → Int → ident_t
  /-- Identifier returned by `sh_fresh`. -/
  sh_fresh : pl_shader → String → ident_t
  /-- Identifier returned by `sh_var`. -/
  sh_var : pl_shader → String → ℚ → ident_t

/-- How a call ends: it returns a value, or the process is terminated by `abort()` (also the
effect of a failed `assert`). -/
inductive Outcome where
  | ret (b : Bool)
  | abort
deriving DecidableEq

/-- Everything a call of `pl_shader_sample_polar` can read and change: the shader, the
caller's slot `*params->lut` (`none` while the pointer is still null), and the trace. -/
structure State where
  sh : pl_shader
  lut : Option pl_shader_obj
  trace : List Event
deriving DecidableEq

/-- Append an event to the trace. -/
def State.emit (s : State) (e : Event) : State :=
  { s with trace := s.trace ++ [e] }

/-! ## Helper macros and conversions -/

/-- Modelled from the spec: the macro `PL_DEF(x, d)` is declared outside the translated
sources; it applies the default `d` when `x` is unset (zero). -/
def PL_DEF {α : Type} [Zero α] [DecidableEq α] (x d : α) : α :=
  if x = 0 then d else x

/-- Modelled from the spec: the macro `PL_MIN`, the smaller of two values. -/
def PL_MIN (x y : ℚ) : ℚ := if x < y then x else y

/-- Modelled from the spec: the macro `PL_MAX`, the larger of two values. -/
def PL_MAX (x y : ℚ) : ℚ := if x > y then x else y

/-- Modelled from the spec: `pl_rect_w`, the width of a rectangle. -/
def pl_rect_w (r : pl_rect2df) : ℚ := r.x1 - r.x0

/-- Modelled from the spec: `pl_rect_h`, the height of a rectangle. -/
def pl_rect_h (r : pl_rect2df) : ℚ := r.y1 - r.y0

/-- Conversion of a `float` to `int`: truncation towards zero. -/
def float_to_int (q : ℚ) : Int := if 0 ≤ q then ⌊q⌋ else ⌈q⌉

/-- Conversion of an unsigned 64-bit product to `int`: wrap to 32 bits, two's complement. -/
def to_int32 (n : Int) : Int := (n + 2 ^ 31) % 2 ^ 32 - 2 ^ 31

/-- The test `sqrt(n) >= r` for an integer `n ≥ 0`, decided on the squares. -/
def sqrt_ge (n : Int) (r : ℚ) : Bool := decide (r ≤ 0) || decide (r * r ≤ n)

/-- The test `sqrt(n) >= r - M_SQRT2` for an integer `n ≥ 0`, decided without roots:
`sqrt n + sqrt 2 ≥ r` iff `r ≤ 0` or `2 * sqrt (2 n) ≥ r² - n - 2`. -/
def sqrt_ge_sub_sqrt2 (n : Int) (r : ℚ) : Bool :=
  decide (r ≤ 0) || decide (r * r - n - 2 ≤ 0) ||
    decide ((r * r - n - 2) * (r * r - n - 2) ≤ 8 * n)

/-- The integers `lo, lo + 1, ..., hi` of a loop `for (int i = lo; i <= hi; i++)`. -/
def int_range (lo hi : Int) : List Int :=
  (List.range (hi + 1 - lo).toNat).map (fun (k : Nat) => lo + (k : Int))

/-! ## `filter_compat` and the LUT cache -/

/-- Modelled from the spec: `pl_filter_config_eq` is declared outside the translated
sources; "config matches exactly" is equality of the two configurations. -/
def pl_filter_config_eq (a b : pl_filter_config) : Bool := decide (a = b)

/-- The function `filter_compat` of `sampling.c`. -/
def filter_compat (filter : Option pl_filter) (inv_scale : ℚ) (lut_entries : Int)
    (params : pl_sample_polar_params) : Bool :=
  match filter with
  | none => false
  | some f =>
    if f.params.lut_entries ≠ lut_entries then false
    else if |f.params.filter_scale - inv_scale| > 1 / 1000 then false
    else pl_filter_config_eq f.params.config params.filter

/-- Modelled from the spec: `sh_require_obj(sh, params->lut, PL_SHADER_OBJ_LUT)` is declared
outside the translated sources.  "A ShaderObject is created empty on first reference to a
caller's slot": a null slot receives a fresh empty object; an object already there is checked
and kept.  The result is the object now in the slot, or `none` when the call returns false
(the slot is then left alone). -/
def sh_require_obj (env : Env) (slot : Option pl_shader_obj) : Option pl_shader_obj :=
  match slot with
  | none => some { filter := none, tex := none }
  | some obj => if env.obj_ok obj then some obj else none

/-! ## Resolved dimensions (`pl_shader_sample_polar`, lines 175-193) -/

/-- Local `comps`. -/
def comps (src : pl_sample_src) : Int :=
  PL_DEF src.components src.tex.params.format.num_components

/-- Local `src_w`: the width of the sub-rectangle, or of the texture when that is zero. -/
def src_w (src : pl_sample_src) : ℚ :=
  PL_DEF (pl_rect_w src.rect) (src.tex.params.w : ℚ)

/-- Local `src_h`. -/
def src_h (src : pl_sample_src) : ℚ :=
  PL_DEF (pl_rect_h src.rect) (src.tex.params.h : ℚ)

/-- Local `int out_w = PL_DEF(src->new_w, src_w)`: the conditional has type `float` and is
converted to `int`. -/
def out_w (src : pl_sample_src) : Int :=
  float_to_int (PL_DEF (src.new_w : ℚ) (src_w src))

/-- Local `int out_h = PL_DEF(src->new_h, src_h)`. -/
def out_h (src : pl_sample_src) : Int :=
  float_to_int (PL_DEF (src.new_h : ℚ) (src_h src))

/-- Local `ratio_x = out_w / src_w`. -/
def ratio_x (src : pl_sample_src) : ℚ := (out_w src : ℚ) / src_w src

/-- Local `ratio_y = out_h / src_h`. -/
def ratio_y (src : pl_sample_src) : ℚ := (out_h src : ℚ) / src_h src

/-- Local `lut_entries = PL_DEF(params->lut_entries, 64)`. -/
def lut_entries (params : pl_sample_polar_params) : Int :=
  PL_DEF params.lut_entries 64

/-- Local `inv_scale`: `1.0 / PL_MIN(ratio_x, ratio_y)`, then `PL_MAX(inv_scale, 1.0)`. -/
def inv_scale (src : pl_sample_src) : ℚ :=
  PL_MAX (1 / PL_MIN (ratio_x src) (ratio_y src)) 1

/-! ## Regeneration of the LUT (`pl_shader_sample_polar`, lines 201-239) -/

/-- The parameters handed to `pl_filter_generate`. -/
def lut_filter_params (params : pl_sample_polar_params) (lut_entries : Int)
    (inv_scale : ℚ) : pl_filter_params :=
  { config := params.filter
    lut_entries := lut_entries
    filter_scale := inv_scale
    cutoff := PL_DEF params.cutoff (1 / 1000) }

/-- The parameters handed to `ra_tex_create`. -/
def lut_tex_params (lut_entries : Int) (fmt : ra_fmt) (filter : pl_filter) : ra_tex_params :=
  { w := lut_entries
    h := 0
    format := fmt
    sampleable := true
    sample_mode := ra_tex_sample_mode.RA_TEX_SAMPLE_LINEAR
    address_mode := ra_tex_address_mode.RA_TEX_ADDRESS_CLAMP
    initial_data := some filter.weights }

/-- The condition of the `if` at line 201: the LUT has to be (re)generated. -/
def needs_regen (lut : pl_shader_obj) (inv_scale : ℚ) (lut_entries : Int)
    (params : pl_sample_polar_params) : Bool :=
  lut.tex.isNone || !filter_compat lut.filter inv_scale lut_entries params

/-- The body of the `if` at lines 202-239.  Returns `false` where the source returns false
from inside the block, together with the object and the trace as they are at that point. -/
def lut_regenerate (env : Env) (params : pl_sample_polar_params) (lut_entries : Int)
    (inv_scale : ℚ) (lut : pl_shader_obj) (trace : List Event) :
    Bool × pl_shader_obj × List Event :=
  match env.ra_find_fmt with
  | none =>
    (false, lut,
      trace ++ [Event.log LogLevel.warn "Found no matching texture format for polar LUT"])
  | some fmt =>
    let trace := trace ++ [Event.log LogLevel.info "Recreating polar filter LUT"]
    -- pl_filter_free(&lut->filter)
    let trace := trace ++ [Event.filter_free]
    let lut := { lut with filter := none }
    -- lut->filter = pl_filter_generate(...)
    let fp := lut_filter_params params lut_entries inv_scale
    let trace := trace ++ [Event.filter_generate fp]
    let lut := { lut with filter := env.pl_filter_generate fp }
    match lut.filter with
    | none =>
      (false, lut, trace ++ [Event.log LogLevel.err "Failed initializing polar filter!"])
    | some filter =>
      -- lut->tex = ra_tex_create(...)
      let tp := lut_tex_params lut_entries fmt filter
      let trace := trace ++ [Event.tex_create tp]
      let lut := { lut with tex := env.ra_tex_create tp }
      match lut.tex with
      | none =>
        (false, lut, trace ++ [Event.log LogLevel.err "Failed creating polar LUT texture!"])
      | some _ => (true, lut, trace)

/-- Lines 201-239: regenerate when needed, otherwise leave the object alone. -/
def lut_update (env : Env) (params : pl_sample_polar_params) (lut_entries : Int)
    (inv_scale : ℚ) (lut : pl_shader_obj) (trace : List Event) :
    Bool × pl_shader_obj × List Event :=
  if needs_regen lut inv_scale lut_entries params then
    lut_regenerate env params lut_entries inv_scale lut trace
  else (true, lut, trace)

/-! ## Kernel emission -/

/-- The function `polar_sample` of `sampling.c`: the text it appends to the shader body for
the offset `(x, y)` (nothing when the sample is skipped). -/
def polar_sample (filter : pl_filter) (tex lut lut_pos : ident_t)
    (x y comps : Int) (planar : Bool) : List Glsl :=
  let yy := if y > 0 then y - 1 else y
  let xx := if x > 0 then x - 1 else x
  -- float dmax = sqrt(xx*xx + yy*yy); if (dmax >= filter->radius_cutoff) return;
  if sqrt_ge (xx * xx + yy * yy) filter.radius_cutoff then []
  else
    let maybe_skippable := sqrt_ge_sub_sqrt2 (xx * xx + yy * yy) filter.radius_cutoff
    [Glsl.polar_dist x y]
      ++ (if maybe_skippable then [Glsl.polar_guard_open filter.radius_cutoff] else [])
      ++ [Glsl.polar_weight lut lut_pos filter.radius]
      ++ (if planar then
            (List.range comps.toNat).map (fun (n : Nat) => Glsl.polar_acc_planar (n : Int) (n : Int))
          else [Glsl.polar_acc_direct tex x y])
      ++ (if maybe_skippable then [Glsl.block_close] else [])

/-- Local `bound = ceil(lut->filter->radius_cutoff)`. -/
def polar_bound (filter : pl_filter) : Int := ⌈filter.radius_cutoff⌉

/-- Locals `iw` / `ih`: `(int) ceil(b / ratio) + padding + 1`. -/
def tile_dim (b : Int) (ratio : ℚ) (padding : Int) : Int :=
  ⌈(b : ℚ) / ratio⌉ + padding + 1

/-- Local `int shmem_req = iw * ih * comps * sizeof(float)`. -/
def shmem_req (iw ih comps : Int) : Int := to_int32 (iw * ih * comps * 4)

/-- Lines 314-322: the two dispatch loops over `y` and `x` from `1 - bound` to `bound`. -/
def polar_dispatch (filter : pl_filter) (src_tex lut_tex lut_pos : ident_t)
    (iw bound offset comps : Int) : List Glsl :=
  ((int_range (1 - bound) bound).map (fun y =>
    ((int_range (1 - bound) bound).map (fun x =>
      Glsl.polar_idx iw (iw * (y + offset) + x + offset)
        :: polar_sample filter src_tex lut_tex lut_pos x y comps true)).flatten)).flatten

/-- Lines 241-330 of `pl_shader_sample_polar`: bind the resources and emit the kernel. -/
def polar_emit (env : Env) (src : pl_sample_src) (params : pl_sample_polar_params)
    (filter : pl_filter) (lut_tex_obj : ra_tex) (s : State) : Outcome × State :=
  let sh := s.sh
  let lut_tex := env.sh_desc sh "polar_lut" lut_tex_obj
  let sh := { sh with bindings := sh.bindings ++ [ShBinding.desc "polar_lut" lut_tex_obj] }
  let rect : pl_rect2df :=
    { x0 := src.rect.x0
      y0 := src.rect.y0
      x1 := src.rect.x0 + src_w src
      y1 := src.rect.x0 + src_h src }
  let b := env.sh_bind sh src.tex "src_tex" (some rect)
  let sh := { sh with bindings := sh.bindings ++ [ShBinding.bind src.tex "src_tex" (some rect)] }
  let src_tex := b.tex
  let lut_pos := env.sh_lut_pos sh (lut_entries params)
  let sh := { sh with bindings := sh.bindings ++ [ShBinding.lut_pos (lut_entries params)] }
  let sh := GLSL sh [Glsl.polar_open b.pos b.size b.pt]
  let bound := polar_bound filter
  let offset := bound - 1
  let padding := offset + bound
  let bw : Int := 32
  let bh : Int := 256 / bw
  let iw := tile_dim bw (ratio_x src) padding
  let ih := tile_dim bh (ratio_y src) padding
  let shmem := shmem_req iw ih (comps src)
  let s := s.emit (Event.try_compute bw bh false shmem)
  if env.sh_try_compute sh bw bh false shmem then
    let sh := GLSL sh [Glsl.polar_compute_setup b.pos]
    let sh := GLSL sh [Glsl.polar_load_open iw bh iw bw src_tex offset offset]
    let sh := (List.range (comps src).toNat).foldl (fun (sh : pl_shader) (c : Nat) =>
      GLSL (GLSLH sh [Glsl.polar_shared_decl (c : Int) (ih * iw)])
        [Glsl.polar_load_store (c : Int) iw (c : Int)]) sh
    let sh := GLSL sh [Glsl.polar_load_close]
    let sh := GLSL sh (polar_dispatch filter src_tex lut_tex lut_pos iw bound offset (comps src))
    let sh := GLSL sh [Glsl.polar_close]
    (Outcome.ret true, { s with sh := sh })
  else
    -- Fragment shader sampling: abort(); // TODO
    (Outcome.abort, { s with sh := sh })

/-- The function `pl_shader_sample_polar` of `sampling.c`. -/
def pl_shader_sample_polar (env : Env) (src : pl_sample_src)
    (params : pl_sample_polar_params) (s : State) : Outcome × State :=
  if !params.filter.polar then
    (Outcome.ret false,
      s.emit (Event.log LogLevel.err "Trying to use polar sampling with a non-polar filter?"))
  else if !env.sh_require s.sh (out_w src) (out_h src) then (Outcome.ret false, s)
  else
    match sh_require_obj env s.lut with
    | none => (Outcome.ret false, s)
    | some lut =>
      let s := { s with lut := some lut }
      if env.max_tex_1d_dim < lut_entries params then
        (Outcome.ret false,
          s.emit (Event.log LogLevel.err "LUT of size %d exceeds the max 1D texture dimension (%d)"))
      else
        match lut_update env params (lut_entries params) (inv_scale src) lut s.trace with
        | (false, lut, trace) => (Outcome.ret false, { s with lut := some lut, trace := trace })
        | (true, lut, trace) =>
          let s := { s with lut := some lut, trace := trace }
          -- assert(lut->filter && lut->tex)
          match lut.filter, lut.tex with
          | some filter, some lut_tex_obj => polar_emit env src params filter lut_tex_obj s
          | _, _ => (Outcome.abort, s)

/-! ## `pl_shader_deband` -/

/-- The function `pl_shader_deband` of `sampling.c`. -/
def pl_shader_deband (env : Env) (ra_tex : ra_tex) (params : pl_deband_params)
    (sh : pl_shader) : pl_shader :=
  if !env.sh_require sh ra_tex.params.w ra_tex.params.h then sh
  else
    let sh := GLSL sh [Glsl.deband_open]
    let b := env.sh_bind sh ra_tex "deband" none
    let sh := { sh with bindings := sh.bindings ++ [ShBinding.bind ra_tex "deband" none] }
    let tex := b.tex
    let pos := b.pos
    let pt := b.pt
    -- if (!tex) return;
    if tex.isNone then sh
    else
      let sh := GLSL sh [Glsl.deband_pos pos]
      let random := env.sh_fresh sh "random"
      let permute := env.sh_fresh sh "permute"
      let sh := GLSLH sh [Glsl.deband_prng_fns permute random]
      let seed := env.sh_var sh "seed" params.seed
      let sh := { sh with bindings := sh.bindings ++ [ShBinding.var "seed" params.seed] }
      let sh := GLSL sh [Glsl.deband_init seed permute tex]
      let average := env.sh_fresh sh "average"
      let sh := GLSLH sh [Glsl.deband_average_fn average random tex pt]
      -- for (int i = 1; i <= params->iterations; i++)
      let sh := GLSL sh ((int_range 1 params.iterations).map (fun (i : Int) =>
        Glsl.deband_step average ((i : ℚ) * params.radius)
          (params.threshold / (((1000 : Int) * i : Int) : ℚ))))
      let sh :=
        if params.grain > 0 then GLSL sh [Glsl.deband_noise random (params.grain / 1000)]
        else sh
      GLSL sh [Glsl.block_close]

/-! ## Meaning of the emitted deband program

The emitted text runs on the GPU, once per pixel.  Its meaning is given for one pixel: the
texture is a function of the position, and the only part of the helper functions that is not
rational arithmetic, the direction `vec2(cos(dir), sin(dir))` with `dir = u * 2π`, is a field
of `Gpu`. -/

/-- A GLSL `vec4`. -/
structure vec4 where
  x : ℚ
  y : ℚ
  z : ℚ
  w : ℚ
deriving DecidableEq

/-- Componentwise combination of two vectors. -/
def vec4.zip (f : ℚ → ℚ → ℚ) (a b : vec4) : vec4 :=
  { x := f a.x b.x, y := f a.y b.y, z := f a.z b.z, w := f a.w b.w }

/-- What the emitted program sees at one pixel. -/
structure Gpu where
  /-- The bound texture as a function of the sampling position. -/
  texture : ℚ × ℚ → vec4
  /-- The position `pos` of the pixel. -/
  pos : ℚ × ℚ
  /-- The texel step `pt`. -/
  pt : ℚ × ℚ
  /-- The uniform `seed`. -/
  seed : ℚ
  /-- The unit vector `(cos (u * 2π), sin (u * 2π))` of a draw `u`. -/
  dir : ℚ → ℚ × ℚ

/-- The emitted helper `permute`: `x = (34.0 * x + 1.0) * x; x - floor(x * 1.0/289.0) * 289.0`. -/
def glsl_permute (x : ℚ) : ℚ :=
  let x := (34 * x + 1) * x
  x - (⌊x * 1 / 289⌋ : ℚ) * 289

/-- The emitted helper `random(inout state)`: the draw and the new state. -/
def glsl_random (state : ℚ) : ℚ × ℚ :=
  let state := glsl_permute state
  (Int.fract (state * 1 / 41), state)

/-- The emitted helper `average(pos, range, inout prng)`: the average and the new state. -/
def glsl_average (g : Gpu) (range prng : ℚ) : vec4 × ℚ :=
  let r1 := glsl_random prng
  let dist := r1.1 * range
  let r2 := glsl_random r1.2
  let o : ℚ × ℚ := (dist * (g.dir r2.1).1, dist * (g.dir r2.1).2)
  let at_ (sx sy : ℚ) : vec4 :=
    g.texture (g.pos.1 + g.pt.1 * (sx * o.1), g.pos.2 + g.pt.2 * (sy * o.2))
  let sum := vec4.zip (· + ·) (vec4.zip (· + ·) (vec4.zip (· + ·) (at_ 1 1) (at_ (-1) 1))
    (at_ (-1) (-1))) (at_ 1 (-1))
  (vec4.zip (fun _ c => (1 / 4) * c) sum sum, r2.2)

/-- The variables of the deband program. -/
structure DebandRegs where
  color : vec4
  prng : ℚ
  avg : vec4
  diff : vec4
deriving DecidableEq

/-- One fragment of the deband body executed at a pixel. -/
def deband_exec (g : Gpu) (r : DebandRegs) : Glsl → DebandRegs
  | Glsl.deband_init _ _ _ =>
    let m : ℚ × ℚ × ℚ := (g.pos.1 + 1, g.pos.2 + 1, g.seed + 1)
    { r with
      prng := glsl_permute (glsl_permute (glsl_permute m.1 + m.2.1) + m.2.2)
      color := g.texture g.pos }
  | Glsl.deband_step _ range threshold =>
    let a := glsl_average g range r.prng
    let avg := a.1
    let diff := vec4.zip (fun c v => |c - v|) r.color avg
    -- mix(avg, color, greaterThan(diff, vec4(threshold)))
    let pick (d c v : ℚ) : ℚ := if d > threshold then c else v
    { prng := a.2
      avg := avg
      diff := diff
      color :=
        { x := pick diff.x r.color.x avg.x, y := pick diff.y r.color.y avg.y
          z := pick diff.z r.color.z avg.z, w := pick diff.w r.color.w avg.w } }
  | Glsl.deband_noise _ amount =>
    let n1 := glsl_random r.prng
    let n2 := glsl_random n1.2
    let n3 := glsl_random n2.2
    { r with
      prng := n3.2
      color :=
        { x := r.color.x + amount * (n1.1 - 1 / 2)
          y := r.color.y + amount * (n2.1 - 1 / 2)
          z := r.color.z + amount * (n3.1 - 1 / 2)
          w := r.color.w } }
  | _ => r

/-- The deband body executed at a pixel, fragment after fragment. -/
def deband_run (g : Gpu) (r : DebandRegs) (code : List Glsl) : DebandRegs :=
  code.foldl (deband_exec g) r

/-- The text a call of `pl_shader_deband` appends to the body of `sh`. -/
def deband_emitted (env : Env) (ra_tex : ra_tex) (params : pl_deband_params)
    (sh : pl_shader) : List Glsl :=
  (pl_shader_deband env ra_tex params sh).body.drop sh.body.length

/-! ## Observations on the trace -/

/-- The textures created in a trace: the parameters of each `ra_tex_create` call. -/
def tex_creates (t : List Event) : List ra_tex_params :=
  t.filterMap (fun e => match e with | Event.tex_create p => some p | _ => none)

/-- The filters generated in a trace: the parameters of each `pl_filter_generate` call. -/
def filter_generates (t : List Event) : List pl_filter_params :=
  t.filterMap (fun e => match e with | Event.filter_generate p => some p | _ => none)

/-- A single-channel float format for the LUT. -/
def ex_fmt_lut : ra_fmt := { name := "r32f", num_components := 1 }

/-- A four-component format for the source. -/
def ex_fmt_rgba : ra_fmt := { name := "rgba8", num_components := 4 }

/-- A four-component source texture of the given size. -/
def ex_tex (w h : Int) (handle : Nat) : ra_tex :=
  { params :=
      { w := w, h := h, format := ex_fmt_rgba, sampleable := true
        sample_mode := ra_tex_sample_mode.RA_TEX_SAMPLE_LINEAR
        address_mode := ra_tex_address_mode.RA_TEX_ADDRESS_CLAMP
        initial_data := none }
    handle := handle }

/-- A filter generator that records its parameters in the filter it returns; the filter has
radius 3 and the given cutoff radius. -/
def ex_generate (radius_cutoff : ℚ) (p : pl_filter_params) : Option pl_filter :=
  some { params := p, weights := [1, 1 / 2, 0], radius := 3, radius_cutoff := radius_cutoff }

/-- A device with compute shaders on which every collaborator succeeds. -/
def ex_env : Env :=
  { max_tex_1d_dim := 1024
    sh_require := fun _ _ _ => true
    obj_ok := fun _ => true
    ra_find_fmt := some ex_fmt_lut
    pl_filter_generate := ex_generate 3
    ra_tex_create := fun p => some { params := p, handle := 7 }
    sh_try_compute := fun _ _ _ _ _ => true
    sh_desc := fun _ n _ => some n
    sh_bind := fun _ _ n _ =>
      { tex := some n, pos := some "pos", size := some "size", pt := some "pt" }
    sh_lut_pos := fun _ _ => some "lut_pos"
    sh_fresh := fun _ n => some n
    sh_var := fun _ n _ => some n }

/-- The whole 4000x4000 texture as source, with the given output size (zero: unset). -/
def ex_src (new_w new_h : Int) : pl_sample_src :=
  { tex := ex_tex 4000 4000 1, rect := { x0 := 0, y0 := 0, x1 := 0, y1 := 0 }
    components := 0, new_w := new_w, new_h := new_h }

/-- A polar filter with the default LUT size and cutoff. -/
def ex_params : pl_sample_polar_params :=
  { filter := { polar := true, kernel := 1 }, lut_entries := 0, cutoff := 0 }

/-- An empty shader. -/
def ex_sh : pl_shader := { body := [], header := [], bindings := [] }

/-- An empty shader, a slot that is still null, and an empty trace. -/
def ex_state : State := { sh := ex_sh, lut := none, trace := [] }

/-- A filter generated earlier for 32 entries, which a request for 64 entries does not match. -/
def ex_old_filter : pl_filter :=
  { params := { config := { polar := true, kernel := 1 }, lut_entries := 32
                filter_scale := 1, cutoff := 1 / 1000 }
    weights := [1, 0], radius := 3, radius_cutoff := 3 }

/-- A texture created earlier for `ex_old_filter`. -/
def ex_old_tex : ra_tex :=
  { params :=
      { w := 32, h := 0, format := ex_fmt_lut, sampleable := true
        sample_mode := ra_tex_sample_mode.RA_TEX_SAMPLE_LINEAR
        address_mode := ra_tex_address_mode.RA_TEX_ADDRESS_CLAMP
        initial_data := some [1, 0] }
    handle := 5 }

/-- A slot holding `ex_old_filter` and its texture. -/
def ex_stale_state : State :=
  { sh := ex_sh, lut := some { filter := some ex_old_filter, tex := some ex_old_tex }, trace := [] }

/-- Whether a fragment is an averaging step of the deband loop. -/
def Glsl.is_deband_step : Glsl → Bool
  | Glsl.deband_step _ _ _ => true
  | _ => false

/-- Whether a fragment is the noise step of the deband pass. -/
def Glsl.is_deband_noise : Glsl → Bool
  | Glsl.deband_noise _ _ => true
  | _ => false

/-- Deband parameters with no iterations and no grain. -/
def ex_deband_identity : pl_deband_params :=
  { seed := 3, iterations := 0, threshold := 4, radius := 16, grain := 0 }

/-- A pixel of a constant texture. -/
def ex_gpu : Gpu :=
  { texture := fun _ => { x := 1, y := 2, z := 3, w := 4 }
    pos := (1 / 2, 1 / 2)
    pt := (1 / 4000, 1 / 4000)
    seed := 3
    dir := fun _ => (1, 0) }

/-- Registers before the program has run. -/
def ex_regs : DebandRegs :=
  { color := { x := 0, y := 0, z := 0, w := 0 }, prng := 0
    avg := { x := 0, y := 0, z := 0, w := 0 }, diff := { x := 0, y := 0, z := 0, w := 0 } }

/-! ## Definitions for the bound rectangle, the deband step and the contributing offsets -/

/-- The rectangles passed to `sh_bind` under the name `src_tex`, in the order of the calls. -/
def src_tex_rects (sh : pl_shader) : List (Option pl_rect2df) :=
  sh.bindings.filterMap (fun b =>
    match b with
    | ShBinding.bind _ name rect => if name = "src_tex" then some rect else none
    | _ => none)

/-- The sub-rectangle from (10, 20) to (110, 120) of the 4000x4000 texture, output size
unset. -/
def ex_src_offset : pl_sample_src :=
  { tex := ex_tex 4000 4000 1, rect := { x0 := 10, y0 := 20, x1 := 110, y1 := 120 }
    components := 0, new_w := 0, new_h := 0 }

/-- The root-free test decides `sqrt n >= r - sqrt 2`. -/
theorem sqrt_ge_sub_sqrt2_iff (n : Int) (hn : 0 ≤ n) (r : ℚ) :
    sqrt_ge_sub_sqrt2 n r = true ↔ (r : ℝ) - Real.sqrt 2 ≤ Real.sqrt (n : ℝ) := by
  have hn' : (0 : ℝ) ≤ (n : ℝ) := by exact_mod_cast hn
  have hs0 : 0 ≤ Real.sqrt (n : ℝ) := Real.sqrt_nonneg _
  have ht0 : 0 ≤ Real.sqrt 2 := Real.sqrt_nonneg _
  have hs : Real.sqrt (n : ℝ) * Real.sqrt (n : ℝ) = n := Real.mul_self_sqrt hn'
  have ht : Real.sqrt 2 * Real.sqrt 2 = 2 := Real.mul_self_sqrt (by norm_num)
  have hst : 0 ≤ Real.sqrt (n : ℝ) * Real.sqrt 2 := mul_nonneg hs0 ht0
  have h8 : (2 * (Real.sqrt n * Real.sqrt 2)) * (2 * (Real.sqrt n * Real.sqrt 2)) = 8 * n := by
    calc (2 * (Real.sqrt n * Real.sqrt 2)) * (2 * (Real.sqrt n * Real.sqrt 2))
        = 4 * (Real.sqrt n * Real.sqrt n) * (Real.sqrt 2 * Real.sqrt 2) := by ring
      _ = 8 * n := by rw [hs, ht]; ring
  have c1 : (r ≤ 0) ↔ ((r : ℝ) ≤ 0) := by
    constructor <;> intro h <;> exact_mod_cast h
  have c2 : (r * r - n - 2 ≤ 0) ↔ ((r : ℝ) * r - n - 2 ≤ 0) := by
    constructor
    · intro h
      have : ((r * r - n - 2 : ℚ) : ℝ) ≤ ((0 : ℚ) : ℝ) := by exact_mod_cast h
      push_cast at this
      exact this
    · intro h
      have : ((r * r - n - 2 : ℚ) : ℝ) ≤ ((0 : ℚ) : ℝ) := by push_cast; exact h
      exact_mod_cast this
  have c3 : ((r * r - n - 2) * (r * r - n - 2) ≤ 8 * n) ↔
      (((r : ℝ) * r - n - 2) * ((r : ℝ) * r - n - 2) ≤ 8 * n) := by
    constructor
    · intro h
      have : (((r * r - n - 2) * (r * r - n - 2) : ℚ) : ℝ) ≤ ((8 * n : ℚ) : ℝ) := by
        exact_mod_cast h
      push_cast at this
      exact this
    · intro h
      have : (((r * r - n - 2) * (r * r - n - 2) : ℚ) : ℝ) ≤ ((8 * n : ℚ) : ℝ) := by
        push_cast; exact h
      exact_mod_cast this
  unfold sqrt_ge_sub_sqrt2
  rw [Bool.or_eq_true, Bool.or_eq_true, decide_eq_true_iff, decide_eq_true_iff,
    decide_eq_true_iff, c1, c2, c3]
  constructor
  · rintro ((h | h) | h)
    · linarith
    · by_contra hc
      push_neg at hc
      nlinarith
    · by_contra hc
      push_neg at hc
      by_cases hd : (r : ℝ) * r - n - 2 ≤ 0
      · nlinarith
      · push_neg at hd
        have h2 : (r : ℝ) * r - n - 2 ≤ 2 * (Real.sqrt n * Real.sqrt 2) := by
          by_contra h3
          push_neg at h3
          nlinarith
        nlinarith
  · intro h
    by_cases h0 : (r : ℝ) ≤ 0
    · exact Or.inl (Or.inl h0)
    · push_neg at h0
      have h1 : (r : ℝ) ≤ Real.sqrt n + Real.sqrt 2 := by linarith
      have h2 : (r : ℝ) * r ≤ (Real.sqrt n + Real.sqrt 2) * (Real.sqrt n + Real.sqrt 2) :=
        mul_self_le_mul_self h0.le h1
      have h3 : (r : ℝ) * r - n - 2 ≤ 2 * (Real.sqrt n * Real.sqrt 2) := by nlinarith
      by_cases hd : (r : ℝ) * r - n - 2 ≤ 0
      · exact Or.inl (Or.inr hd)
      · push_neg at hd
        right
        exact (mul_self_le_mul_self hd.le h3).trans h8.le

/-- A regeneration that returns false stopped at the format query, at the filter generator
or at texture creation. -/
theorem lut_regenerate_fail (env : Env) (params : pl_sample_polar_params) (le : Int)
    (inv : ℚ) (lut lut1 : pl_shader_obj) (tr tr1 : List Event)
    (h : lut_regenerate env params le inv lut tr = (false, lut1, tr1)) :
    (env.ra_find_fmt = none ∧ lut1 = lut)
    ∨ (env.ra_find_fmt ≠ none ∧ env.pl_filter_generate (lut_filter_params params le inv) = none
        ∧ lut1.filter = none)
    ∨ (env.ra_find_fmt ≠ none ∧ env.pl_filter_generate (lut_filter_params params le inv) ≠ none
        ∧ lut1.tex = none) := by
  unfold lut_regenerate at h
  cases hf : env.ra_find_fmt with
  | none =>
    simp [hf] at h
    exact Or.inl ⟨rfl, h.1.symm⟩
  | some fmt =>
    simp only [hf] at h
    cases hg : env.pl_filter_generate (lut_filter_params params le inv) with
    | none =>
      simp [hg] at h
      right; left
      refine ⟨by simp, rfl, ?_⟩
      rw [← h.1]
    | some f =>
      simp only [hg] at h
      cases ht : env.ra_tex_create (lut_tex_params le fmt f) with
      | none =>
        simp [ht] at h
        right; right
        refine ⟨by simp, by simp, ?_⟩
        rw [← h.1]
      | some t => simp [ht] at h

/-- Past the four precondition checks the call is the LUT update followed by the emission. -/
theorem sample_polar_reach (env : Env) (src : pl_sample_src) (params : pl_sample_polar_params)
    (s : State) (lut0 : pl_shader_obj) (hpolar : params.filter.polar = true)
    (hreq : env.sh_require s.sh (out_w src) (out_h src) = true)
    (hobj : sh_require_obj env s.lut = some lut0)
    (hdim : ¬ env.max_tex_1d_dim < lut_entries params) :
    pl_shader_sample_polar env src params s =
      match lut_update env params (lut_entries params) (inv_scale src) lut0 s.trace with
      | (false, lut, trace) => (Outcome.ret false, { s with lut := some lut, trace := trace })
      | (true, lut, trace) =>
        match lut.filter, lut.tex with
        | some filter, some t =>
          polar_emit env src params filter t { s with lut := some lut, trace := trace }
        | _, _ => (Outcome.abort, { s with lut := some lut, trace := trace }) := by
  simp only [pl_shader_sample_polar, hpolar, hreq, hobj, hdim]
  rfl

/-- The emission never returns false. -/
theorem polar_emit_ne_false (env : Env) (src : pl_sample_src) (params : pl_sample_polar_params)
    (f : pl_filter) (t : ra_tex) (s : State) :
    (polar_emit env src params f t s).1 ≠ Outcome.ret false := by
  unfold polar_emit
  simp only
  split <;> simp

/-- A call that returns true went through a successful LUT update and is the emission of the
tiled kernel for the filter and the texture left in the slot. -/
theorem sample_polar_true_emit (env : Env) (src : pl_sample_src)
    (params : pl_sample_polar_params) (s : State)
    (h : (pl_shader_sample_polar env src params s).1 = Outcome.ret true) :
    ∃ lut0 lut1 f t tr1, params.filter.polar = true
      ∧ sh_require_obj env s.lut = some lut0
      ∧ lut_update env params (lut_entries params) (inv_scale src) lut0 s.trace = (true, lut1, tr1)
      ∧ lut1.filter = some f ∧ lut1.tex = some t
      ∧ pl_shader_sample_polar env src params s
          = polar_emit env src params f t { s with lut := some lut1, trace := tr1 } := by
  by_cases hpolar : params.filter.polar = true
  swap
  · simp [pl_shader_sample_polar, hpolar] at h
  by_cases hreq : env.sh_require s.sh (out_w src) (out_h src) = true
  swap
  · simp [pl_shader_sample_polar, hpolar, hreq] at h
  cases hobj : sh_require_obj env s.lut with
  | none => simp [pl_shader_sample_polar, hpolar, hreq, hobj] at h
  | some lut0 =>
    by_cases hdim : env.max_tex_1d_dim < lut_entries params
    · simp [pl_shader_sample_polar, hpolar, hreq, hobj, hdim] at h
    rw [sample_polar_reach env src params s lut0 hpolar hreq hobj hdim] at h ⊢
    rcases hr : lut_update env params (lut_entries params) (inv_scale src) lut0 s.trace with
      ⟨ok, lut1, tr1⟩
    rw [hr] at h
    cases ok with
    | false => simp at h
    | true =>
      simp only at h ⊢
      split at h
      · rename_i f t hf ht
        refine ⟨lut0, lut1, f, t, tr1, hpolar, rfl, hr, hf, ht, ?_⟩
        simp only [hf, ht]
      · simp at h

/-- C9: a call whose `params.filter.polar` is false returns false and changes nothing: the
slot (with its filter and texture) and the shader are what they were, no filter is generated
and no texture is created; the only effect is the logged error. -/
theorem sample_polar_non_polar (env : Env) (src : pl_sample_src)
    (params : pl_sample_polar_params) (s : State) (h : params.filter.polar = false) :
    (pl_shader_sample_polar env src params s).1 = Outcome.ret false
    ∧ (pl_shader_sample_polar env src params s).2.lut = s.lut
    ∧ (pl_shader_sample_polar env src params s).2.sh = s.sh
    ∧ filter_generates (pl_shader_sample_polar env src params s).2.trace
        = filter_generates s.trace
    ∧ tex_creates (pl_shader_sample_polar env src params s).2.trace = tex_creates s.trace
    ∧ (pl_shader_sample_polar env src params s).2.trace = s.trace ++
        [Event.log LogLevel.err "Trying to use polar sampling with a non-polar filter?"] := by
  simp [pl_shader_sample_polar, h, State.emit, filter_generates, tex_creates]

/-- C9 at a concrete input: a non-polar filter on the stale slot. -/
theorem sample_polar_non_polar_witness :
    (pl_shader_sample_polar ex_env (ex_src 0 0)
        { ex_params with filter := { polar := false, kernel := 1 } } ex_stale_state).1
      = Outcome.ret false
    ∧ (pl_shader_sample_polar ex_env (ex_src 0 0)
        { ex_params with filter := { polar := false, kernel := 1 } } ex_stale_state).2.lut
      = ex_stale_state.lut
    ∧ (pl_shader_sample_polar ex_env (ex_src 0 0)
        { ex_params with filter := { polar := false, kernel := 1 } } ex_stale_state).2.sh
      = ex_stale_state.sh :=
  ⟨(sample_polar_non_polar ex_env (ex_src 0 0)
      { ex_params with filter := { polar := false, kernel := 1 } } ex_stale_state rfl).1,
   (sample_polar_non_polar ex_env (ex_src 0 0)
      { ex_params with filter := { polar := false, kernel := 1 } } ex_stale_state rfl).2.1,
   (sample_polar_non_polar ex_env (ex_src 0 0)
      { ex_params with filter := { polar := false, kernel := 1 } } ex_stale_state rfl).2.2.1⟩

/-! ## C1: a LUT larger than the device limit -/

/-- C1 fails as stated: on a device whose limit is 32, the default request of 64 entries is
rejected, yet the slot that was null before the call holds a fresh empty object afterwards. -/
theorem lut_too_large_null_slot_changes :
    ({ ex_env with max_tex_1d_dim := 32 } : Env).max_tex_1d_dim < lut_entries ex_params
    ∧ ex_state.lut = none
    ∧ (pl_shader_sample_polar { ex_env with max_tex_1d_dim := 32 } (ex_src 0 0) ex_params
        ex_state).1 = Outcome.ret false
    ∧ (pl_shader_sample_polar { ex_env with max_tex_1d_dim := 32 } (ex_src 0 0) ex_params
        ex_state).2.lut = some { filter := none, tex := none }
    ∧ (pl_shader_sample_polar { ex_env with max_tex_1d_dim := 32 } (ex_src 0 0) ex_params
        ex_state).2.lut ≠ ex_state.lut := by
  simp [pl_shader_sample_polar, ex_env, ex_params, ex_state, lut_entries, PL_DEF, sh_require_obj,
    State.emit]

/-- C1, amended: when the effective LUT entry count exceeds `max_tex_1d_dim` the call returns
false, generates no filter and creates no texture, leaves the shader alone, and the filter
and the texture of the slot are what they were; an object already in the slot stays exactly
as it was, and a slot that was null either stays null or receives an empty object. -/
theorem lut_too_large_rejected (env : Env) (src : pl_sample_src)
    (params : pl_sample_polar_params) (s : State)
    (h : env.max_tex_1d_dim < lut_entries params) :
    (pl_shader_sample_polar env src params s).1 = Outcome.ret false
    ∧ filter_generates (pl_shader_sample_polar env src params s).2.trace
        = filter_generates s.trace
    ∧ tex_creates (pl_shader_sample_polar env src params s).2.trace = tex_creates s.trace
    ∧ (pl_shader_sample_polar env src params s).2.lut.bind pl_shader_obj.filter
        = s.lut.bind pl_shader_obj.filter
    ∧ (pl_shader_sample_polar env src params s).2.lut.bind pl_shader_obj.tex
        = s.lut.bind pl_shader_obj.tex
    ∧ (∀ obj, s.lut = some obj → (pl_shader_sample_polar env src params s).2.lut = some obj)
    ∧ (s.lut = none → (pl_shader_sample_polar env src params s).2.lut = none
        ∨ (pl_shader_sample_polar env src params s).2.lut = some { filter := none, tex := none })
    ∧ (pl_shader_sample_polar env src params s).2.sh = s.sh := by
  unfold pl_shader_sample_polar
  split
  · simp [State.emit, filter_generates, tex_creates]
    exact fun h0 => Or.inl h0
  split
  · simp
    exact fun h0 => Or.inl h0
  split
  · simp
    exact fun h0 => Or.inl h0
  · rename_i lut hlut
    simp only [h, if_true, State.emit]
    cases hs : s.lut with
    | none =>
      simp [sh_require_obj, hs] at hlut
      subst hlut
      simp [filter_generates, tex_creates]
    | some obj =>
      simp [sh_require_obj, hs] at hlut
      obtain ⟨_, rfl⟩ := hlut
      simp [filter_generates, tex_creates]

/-- C1, amended, at a concrete input: the limit 32 against 64 entries on the stale slot. -/
theorem lut_too_large_rejected_witness :
    ({ ex_env with max_tex_1d_dim := 32 } : Env).max_tex_1d_dim < lut_entries ex_params
    ∧ (pl_shader_sample_polar { ex_env with max_tex_1d_dim := 32 } (ex_src 0 0) ex_params
        ex_stale_state).1 = Outcome.ret false
    ∧ tex_creates (pl_shader_sample_polar { ex_env with max_tex_1d_dim := 32 } (ex_src 0 0)
        ex_params ex_stale_state).2.trace = tex_creates ex_stale_state.trace :=
  ⟨by simp [ex_env, ex_params, lut_entries, PL_DEF],
   (lut_too_large_rejected { ex_env with max_tex_1d_dim := 32 } (ex_src 0 0) ex_params
      ex_stale_state (by simp [ex_env, ex_params, lut_entries, PL_DEF])).1,
   (lut_too_large_rejected { ex_env with max_tex_1d_dim := 32 } (ex_src 0 0) ex_params
      ex_stale_state (by simp [ex_env, ex_params, lut_entries, PL_DEF])).2.2.1⟩

/-! ## C2: a regeneration that fails -/

/-- C2 fails as stated: the stale slot (a filter for 32 entries with its texture, request for
64) enters the regeneration branch.  When no format is found the call returns false and the
slot still holds the old filter and the old texture; when the filter generator fails the
call returns false and the slot holds the old texture without a filter. -/
theorem failed_regeneration_keeps_resources :
    needs_regen { filter := some ex_old_filter, tex := some ex_old_tex }
        (inv_scale (ex_src 0 0)) (lut_entries ex_params) ex_params = true
    ∧ (pl_shader_sample_polar { ex_env with ra_find_fmt := none } (ex_src 0 0) ex_params
        ex_stale_state).1 = Outcome.ret false
    ∧ (pl_shader_sample_polar { ex_env with ra_find_fmt := none } (ex_src 0 0) ex_params
        ex_stale_state).2.lut = some { filter := some ex_old_filter, tex := some ex_old_tex }
    ∧ (pl_shader_sample_polar { ex_env with pl_filter_generate := fun _ => none } (ex_src 0 0)
        ex_params ex_stale_state).1 = Outcome.ret false
    ∧ (pl_shader_sample_polar { ex_env with pl_filter_generate := fun _ => none } (ex_src 0 0)
        ex_params ex_stale_state).2.lut = some { filter := none, tex := some ex_old_tex } := by
  simp [pl_shader_sample_polar, ex_env, ex_params, ex_stale_state, lut_entries, PL_DEF,
    sh_require_obj, State.emit, lut_update, needs_regen, lut_regenerate, filter_compat,
    ex_old_filter]

/-- C2, amended: a call that enters the regeneration branch and returns false leaves an
object in the slot for which the regeneration condition still holds, so it is never taken
for a valid LUT: when no format is found the object is exactly what it was (nothing is
released), when the filter generator fails it holds no filter, and when texture creation
fails it holds no texture. -/
theorem failed_regeneration_not_valid (env : Env) (src : pl_sample_src)
    (params : pl_sample_polar_params) (s : State) (lut0 : pl_shader_obj)
    (hpolar : params.filter.polar = true)
    (hreq : env.sh_require s.sh (out_w src) (out_h src) = true)
    (hobj : sh_require_obj env s.lut = some lut0)
    (hdim : ¬ env.max_tex_1d_dim < lut_entries params)
    (hregen : needs_regen lut0 (inv_scale src) (lut_entries params) params = true)
    (hfail : (pl_shader_sample_polar env src params s).1 = Outcome.ret false) :
    ∃ lut1, (pl_shader_sample_polar env src params s).2.lut = some lut1
      ∧ needs_regen lut1 (inv_scale src) (lut_entries params) params = true
      ∧ (env.ra_find_fmt = none → lut1 = lut0)
      ∧ (env.ra_find_fmt ≠ none →
          env.pl_filter_generate
            (lut_filter_params params (lut_entries params) (inv_scale src)) = none →
          lut1.filter = none)
      ∧ (env.ra_find_fmt ≠ none →
          env.pl_filter_generate
            (lut_filter_params params (lut_entries params) (inv_scale src)) ≠ none →
          lut1.tex = none) := by
  rw [sample_polar_reach env src params s lut0 hpolar hreq hobj hdim] at hfail ⊢
  simp only [lut_update, hregen, if_true] at hfail ⊢
  rcases hr : lut_regenerate env params (lut_entries params) (inv_scale src) lut0 s.trace with
    ⟨ok, lut1, tr1⟩
  cases ok with
  | true =>
    exfalso
    split at hfail
    · rename_i heq
      rw [hr] at heq
      simp at heq
    · split at hfail
      · exact polar_emit_ne_false _ _ _ _ _ _ hfail
      · simp at hfail
  | false =>
    refine ⟨lut1, rfl, ?_⟩
    rcases lut_regenerate_fail env params _ _ lut0 lut1 s.trace tr1 hr with
      ⟨h1, h2⟩ | ⟨h1, h2, h3⟩ | ⟨h1, h2, h3⟩
    · subst h2
      exact ⟨hregen, fun _ => rfl, fun h => absurd h1 h, fun h => absurd h1 h⟩
    · refine ⟨?_, fun h => absurd h h1, fun _ _ => h3, fun _ h => absurd h2 h⟩
      simp [needs_regen, h3, filter_compat]
    · refine ⟨?_, fun h => absurd h h1, fun _ h => absurd h h2, fun _ _ => h3⟩
      simp [needs_regen, h3]

/-- C2, amended, at a concrete input: the stale slot on a device without a LUT format is
left exactly as it was. -/
theorem failed_regeneration_not_valid_witness :
    (pl_shader_sample_polar { ex_env with ra_find_fmt := none } (ex_src 0 0) ex_params
        ex_stale_state).1 = Outcome.ret false
    ∧ (pl_shader_sample_polar { ex_env with ra_find_fmt := none } (ex_src 0 0) ex_params
        ex_stale_state).2.lut = some { filter := some ex_old_filter, tex := some ex_old_tex } := by
  have hfail : (pl_shader_sample_polar { ex_env with ra_find_fmt := none } (ex_src 0 0)
      ex_params ex_stale_state).1 = Outcome.ret false := by
    simp [pl_shader_sample_polar, ex_env, ex_params, ex_stale_state, lut_entries, PL_DEF,
      sh_require_obj, State.emit, lut_update, needs_regen, lut_regenerate, filter_compat,
      ex_old_filter]
  obtain ⟨lut1, h1, -, h3, -, -⟩ :=
    failed_regeneration_not_valid { ex_env with ra_find_fmt := none } (ex_src 0 0) ex_params
      ex_stale_state { filter := some ex_old_filter, tex := some ex_old_tex } rfl rfl
      (by simp [sh_require_obj, ex_stale_state, ex_env])
      (by simp [ex_env, ex_params, lut_entries, PL_DEF])
      (by simp [needs_regen, filter_compat, ex_old_filter, ex_params, lut_entries, PL_DEF])
      hfail
  exact ⟨hfail, by rw [h1, h3 rfl]⟩

/-! ## C3: the path taken without compute shaders -/

/-- C3: on a device where `sh_try_compute` returns false, a call that passes every check
reaches `abort()`: the outcome is the termination of the process, not `true`. -/
theorem sample_polar_aborts_without_compute :
    (pl_shader_sample_polar { ex_env with sh_try_compute := fun _ _ _ _ _ => false }
      (ex_src 0 0) ex_params ex_state).1 = Outcome.abort := by
  simp [pl_shader_sample_polar, ex_env, ex_params, ex_state, lut_entries, PL_DEF, sh_require_obj,
    State.emit, lut_update, needs_regen, lut_regenerate, ex_generate, polar_emit]

/-- Without compute shaders no call returns true. -/
theorem sample_polar_never_true_without_compute (env : Env) (src : pl_sample_src)
    (params : pl_sample_polar_params) (s : State)
    (hc : ∀ sh bw bh flex shmem, env.sh_try_compute sh bw bh flex shmem = false) :
    (pl_shader_sample_polar env src params s).1 ≠ Outcome.ret true := by
  intro h
  obtain ⟨lut0, lut1, f, t, tr1, -, -, -, -, -, he⟩ := sample_polar_true_emit env src params s h
  rw [he] at h
  unfold polar_emit at h
  simp [hc] at h

/-! ## C4: when the LUT is regenerated -/

/-- The text of a deband pass that gets past `sh_require` and `sh_bind`. -/
theorem deband_emitted_eq (env : Env) (tex : ra_tex) (params : pl_deband_params)
    (sh : pl_shader) (hreq : env.sh_require sh tex.params.w tex.params.h = true)
    (hbind : (env.sh_bind (GLSL sh [Glsl.deband_open]) tex "deband" none).tex ≠ none) :
    ∃ pos seed permute texid average random,
      deband_emitted env tex params sh =
        [Glsl.deband_open, Glsl.deband_pos pos, Glsl.deband_init seed permute texid]
          ++ (int_range 1 params.iterations).map (fun (i : Int) =>
              Glsl.deband_step average ((i : ℚ) * params.radius)
                (params.threshold / (((1000 : Int) * i : Int) : ℚ)))
          ++ (if params.grain > 0 then [Glsl.deband_noise random (params.grain / 1000)] else [])
          ++ [Glsl.block_close] := by
  have hb : (env.sh_bind (GLSL sh [Glsl.deband_open]) tex "deband" none).tex.isNone = false := by
    cases h : (env.sh_bind (GLSL sh [Glsl.deband_open]) tex "deband" none).tex with
    | none => exact absurd h hbind
    | some _ => rfl
  unfold deband_emitted pl_shader_deband
  simp only [hreq, hb, Bool.not_true, Bool.false_eq_true, if_false]
  by_cases hg : params.grain > 0
  · simp only [hg, if_true, GLSL, GLSLH, List.append_assoc, List.drop_left]
    exact ⟨_, _, _, _, _, _, rfl⟩
  · simp only [hg, if_false, GLSL, GLSLH, List.append_assoc, List.drop_left]
    exact ⟨_, _, _, _, _, none, rfl⟩

/-- C7: a deband pass that gets past `sh_require` and `sh_bind` emits exactly
`max(iterations, 0)` averaging steps and emits the noise step if and only if `grain > 0`;
with `iterations = 0` and `grain = 0` the emitted program leaves in `color` the raw texel
`texture(tex, pos)`, for every texture, seed, pixel and initial register contents. -/
theorem deband_structure (env : Env) (tex : ra_tex) (params : pl_deband_params)
    (sh : pl_shader) (hreq : env.sh_require sh tex.params.w tex.params.h = true)
    (hbind : (env.sh_bind (GLSL sh [Glsl.deband_open]) tex "deband" none).tex ≠ none) :
    ((deband_emitted env tex params sh).filter Glsl.is_deband_step).length
        = (max params.iterations 0).toNat
    ∧ ((deband_emitted env tex params sh).any Glsl.is_deband_noise = true ↔ params.grain > 0)
    ∧ (params.iterations = 0 → params.grain = 0 →
        ∀ (g : Gpu) (r : DebandRegs),
          (deband_run g r (deband_emitted env tex params sh)).color = g.texture g.pos) := by
  obtain ⟨pos, seed, permute, texid, average, random, he⟩ :=
    deband_emitted_eq env tex params sh hreq hbind
  rw [he]
  refine ⟨?_, ?_, ?_⟩
  · have h1 : ∀ l : List Int, ((l.map (fun (i : Int) =>
              Glsl.deband_step average ((i : ℚ) * params.radius)
                (params.threshold / (((1000 : Int) * i : Int) : ℚ)))).filter
                  Glsl.is_deband_step).length = l.length := by
      intro l
      induction l with
      | nil => rfl
      | cons a l ih =>
        rw [List.map_cons, List.filter_cons_of_pos (by rfl), List.length_cons, ih,
          List.length_cons]
    simp only [List.filter_append, List.length_append, h1]
    have h2 : (int_range 1 params.iterations).length = (max params.iterations 0).toNat := by
      rw [int_range, List.length_map, List.length_range]
      rcases le_total params.iterations 0 with h | h
      · rw [max_eq_right h]; omega
      · rw [max_eq_left h]; omega
    rw [h2]
    split <;> simp [List.filter, Glsl.is_deband_step]
  · by_cases hg : params.grain > 0
    · simp [hg, Glsl.is_deband_noise]
    · simp [hg, Glsl.is_deband_noise]
  · intro hi hg g r
    simp [hi, hg, int_range, deband_run, deband_exec]

/-- C7 at a concrete input: no iterations and no grain on the device `ex_env`; the program
run at the pixel `ex_gpu` leaves the texel in `color`. -/
theorem deband_structure_witness :
    ((deband_emitted ex_env (ex_tex 4000 4000 1) ex_deband_identity ex_sh).filter
        Glsl.is_deband_step).length = 0
    ∧ (deband_run ex_gpu ex_regs
        (deband_emitted ex_env (ex_tex 4000 4000 1) ex_deband_identity ex_sh)).color
      = ex_gpu.texture ex_gpu.pos :=
  ⟨(deband_structure ex_env (ex_tex 4000 4000 1) ex_deband_identity ex_sh rfl
      (by simp [ex_env])).1,
   (deband_structure ex_env (ex_tex 4000 4000 1) ex_deband_identity ex_sh rfl
      (by simp [ex_env])).2.2 rfl rfl ex_gpu ex_regs⟩

/-! ## C8: ratios and `inv_scale` -/

/-- The emission passes to `sh_bind` the rectangle built at lines 250-255 of the source. -/
theorem polar_emit_bound_rect (env : Env) (src : pl_sample_src) (params : pl_sample_polar_params)
    (f : pl_filter) (t : ra_tex) (s : State) :
    src_tex_rects (polar_emit env src params f t s).2.sh = src_tex_rects s.sh ++
      [some { x0 := src.rect.x0, y0 := src.rect.y0, x1 := src.rect.x0 + src_w src
              y1 := src.rect.x0 + src_h src }] := by
  have hfold : ∀ (iw n : Int) (l : List Nat) (sh : pl_shader),
      (l.foldl (fun (sh : pl_shader) (c : Nat) =>
        GLSL (GLSLH sh [Glsl.polar_shared_decl (c : Int) n])
          [Glsl.polar_load_store (c : Int) iw (c : Int)]) sh).bindings = sh.bindings := by
    intro iw n l
    induction l with
    | nil => intro sh; rfl
    | cons c l ih => intro sh; rw [List.foldl_cons, ih]; rfl
  have hG : ∀ (sh : pl_shader) (code : List Glsl), (GLSL sh code).bindings = sh.bindings :=
    fun _ _ => rfl
  unfold polar_emit
  simp only
  split
  · simp only [src_tex_rects, hG, hfold]
    simp
  · simp only [src_tex_rects, hG]
    simp

/-- The dimensions resolved from the offset sub-rectangle. -/
theorem ex_offset_dims : src_w ex_src_offset = 100 ∧ src_h ex_src_offset = 100 := by
  norm_num [src_w, src_h, ex_src_offset, PL_DEF, pl_rect_w, pl_rect_h]

/-- C12: for the sub-rectangle from (10, 20) to (110, 120), whose resolved size is 100 x 100,
the call succeeds and binds the rectangle from (10, 20) to (110, 110): `y1` is
`rect.x0 + src_h = 110`, not `rect.y0 + src_h = 120`. -/
theorem bound_rect_uses_x0_for_y1 :
    (pl_shader_sample_polar ex_env ex_src_offset ex_params ex_state).1 = Outcome.ret true
    ∧ src_tex_rects (pl_shader_sample_polar ex_env ex_src_offset ex_params ex_state).2.sh
        = [some { x0 := 10, y0 := 20, x1 := 110, y1 := 110 }]
    ∧ ex_src_offset.rect.y0 + src_h ex_src_offset = 120 := by
  have hd := ex_offset_dims
  have hok : (pl_shader_sample_polar ex_env ex_src_offset ex_params ex_state).1
      = Outcome.ret true := by
    simp [pl_shader_sample_polar, ex_env, ex_params, ex_state, lut_entries, PL_DEF,
      sh_require_obj, State.emit, lut_update, needs_regen, lut_regenerate, ex_generate,
      polar_emit]
  obtain ⟨lut0, lut1, f, t, tr1, -, -, -, -, -, he⟩ :=
    sample_polar_true_emit ex_env ex_src_offset ex_params ex_state hok
  refine ⟨hok, ?_, ?_⟩
  · rw [he, polar_emit_bound_rect, hd.1, hd.2]
    norm_num [src_tex_rects, ex_state, ex_sh, ex_src_offset]
  · rw [hd.2]; norm_num [ex_src_offset]

/-! ## C13: the offsets that contribute -/

end Placebo
